import Mathlib

/-!
Shallow embedding of the xatu telemetry bridge from the dimhouse repository
(Rust sources under crates/xatu/src and overlay/xatu/src). The embedding
covers the observer facade and batch scheduler (observer_ffi.rs), the
delivery bridge (ffi.rs), the configuration model (config.rs) and the
initialization paths (init.rs, shim.rs). External collaborators are
modelled at their call boundaries: the crossbeam channel primitives follow
the documented semantics of the crossbeam_channel crate, and the outcomes
of the downstream Go sink (the extern Init / SendEventBatch / Shutdown
calls) and of the process environment (env vars, file reads) are supplied
as oracle parameters. Machine integers are modelled as Nat / Int with the
explicit wrap-around applied exactly where the Rust performs a cast.
-/

namespace Dimhouse

/-- Network information passed from Lighthouse (config.rs, `struct NetworkInfo`). -/
structure NetworkInfo where
  genesis_time : Nat
  network_name : String
  network_id : Nat
  slots_per_epoch : Nat
  seconds_per_slot : Nat
deriving Repr, DecidableEq

/-- Output tuning knobs (config.rs, `struct OutputConfig`); the Rust `HashMap`
of headers is modelled as an association list. -/
structure OutputConfig where
  address : String
  headers : List (String × String)
  tls : Bool
  max_queue_size : Option Nat
  batch_timeout : Option String
  export_timeout : Option String
  max_export_batch_size : Option Nat
  workers : Option Nat
deriving Repr, DecidableEq

/-- Named output (config.rs, `struct XatuOutput`). -/
structure XatuOutput where
  name : String
  output_type : String
  config : OutputConfig
deriving Repr, DecidableEq

/-- Node configuration (config.rs, `struct NodeConfig`). -/
structure NodeConfig where
  name : String
deriving Repr, DecidableEq

/-- Ethereum configuration (config.rs, `struct EthereumConfig`). -/
structure EthereumConfig where
  override_network_name : Option String
deriving Repr, DecidableEq

/-- Top-level configuration file contents (config.rs, `struct XatuConfig`). -/
structure XatuConfig where
  enabled : Bool
  name : Option String
  outputs : Option (List XatuOutput)
  ntp_server : Option String
  ethereum : Option EthereumConfig
deriving Repr, DecidableEq

/-- Full configuration passed to the Go side (config.rs, `struct FullConfig`). -/
structure FullConfig where
  node : Option NodeConfig
  outputs : List XatuOutput
  ntp_server : Option String
  ethereum : Option EthereumConfig
deriving Repr, DecidableEq

/-- Client information (config.rs, `struct ClientInfo`). -/
structure ClientInfo where
  name : String
  version : String
deriving Repr, DecidableEq

/-- Network identity (config.rs, `struct Network`). -/
structure Network where
  name : String
  id : Nat
deriving Repr, DecidableEq

/-- Ethereum block of the processor configuration. The declaration in
config.rs (`struct XatuEthereum`) lists genesis_time, seconds_per_slot,
slots_per_epoch and network; the construction site in observer_ffi.rs also
supplies an `implementation` string, which is included here. -/
structure XatuEthereum where
  implementation : String
  genesis_time : Nat
  seconds_per_slot : Nat
  slots_per_epoch : Nat
  network : Network
deriving Repr, DecidableEq

/-- Processor configuration (config.rs, `struct XatuProcessorConfig`). -/
structure XatuProcessorConfig where
  name : String
  outputs : List XatuOutput
  ethereum : XatuEthereum
  client : ClientInfo
  ntp_server : Option String
deriving Repr, DecidableEq

/-- Combined configuration handed to the FFI bridge
(config.rs, `struct FullConfigWithRuntime`). -/
structure FullConfigWithRuntime where
  log_level : Option String
  processor : XatuProcessorConfig
deriving Repr, DecidableEq

/-- The default enabled configuration (config.rs, `XatuConfig::enabled`).
The Lean field projection already takes the name `XatuConfig.enabled`,
hence the `_config` suffix. -/
def XatuConfig.enabled_config : XatuConfig :=
  { enabled := true, name := none, outputs := none, ntp_server := none, ethereum := none }

/-- Enabled check (config.rs, `XatuConfig::is_enabled`). -/
def XatuConfig.is_enabled (c : XatuConfig) : Bool :=
  c.enabled

/-- Expansion into a `FullConfig` (config.rs, `XatuConfig::get_full_config`). -/
def XatuConfig.get_full_config (c : XatuConfig) : FullConfig :=
  { node := c.name.map (fun name => { name := name }),
    outputs := c.outputs.getD [],
    ntp_server := c.ntp_server,
    ethereum := c.ethereum }

/-- Truncating cast from usize to u32, as performed by `as u32` in Rust. -/
def u32_of_usize (n : Nat) : Nat :=
  n % 4294967296

/-- Reinterpreting cast from u64 to i64 (`as i64` in Rust):
two-complement wrap-around. -/
def i64_of_u64 (n : Nat) : Int :=
  if n < 9223372036854775808 then (n : Int) else (n : Int) - 18446744073709551616

/-- Lower-case hexadecimal digit for a value below 16, as produced by the
hex crate. -/
def hex_digit (n : Nat) : Char :=
  if n < 10 then Char.ofNat (48 + n) else Char.ofNat (87 + n)

/-- Two hexadecimal characters of one byte. -/
def hex_byte (b : Nat) : List Char :=
  [hex_digit (b / 16 % 16), hex_digit (b % 16)]

/-- Lower-case hexadecimal rendering of a byte string (`hex::encode`). -/
def hex_encode (bytes : List Nat) : String :=
  String.mk ((bytes.map hex_byte).flatten)

/-- Hexadecimal rendering with the `0x` marker, as produced by the
`format` calls in observer_ffi.rs. -/
def hex0x (bytes : List Nat) : String :=
  "0x" ++ hex_encode bytes

/-- Fields of the `BeaconBlock` variant of `EventData` (ffi.rs). -/
structure BeaconBlockEvent where
  peer_id : String
  message_id : String
  topic : String
  message_size : Nat
  timestamp_ms : Int
  slot : Nat
  epoch : Nat
  block_root : String
  proposer_index : Nat
deriving Repr, DecidableEq

/-- Fields of the `Attestation` variant of `EventData` (ffi.rs). The type
declaration in ffi.rs names the timestamp field `timestamp` while the
construction site in observer_ffi.rs writes `timestamp_ms`; the embedding
follows the declaration in ffi.rs. -/
structure AttestationEvent where
  peer_id : String
  slot : Nat
  epoch : Nat
  attestation_data_root : String
  subnet_id : Nat
  timestamp : Int
  message_id : String
  should_process : Bool
  topic : String
  message_size : Nat
  source_epoch : Nat
  source_root : String
  target_epoch : Nat
  target_root : String
  committee_index : Nat
  aggregation_bits : String
  signature : String
  attester_index : Nat
deriving Repr, DecidableEq

/-- Fields of the `AggregateAndProof` variant of `EventData` (ffi.rs). -/
structure AggregateAndProofEvent where
  peer_id : String
  slot : Nat
  epoch : Nat
  attestation_data_root : String
  aggregator_index : Nat
  timestamp : Int
  message_id : String
  topic : String
  message_size : Nat
  source_epoch : Nat
  source_root : String
  target_epoch : Nat
  target_root : String
  committee_index : Nat
  aggregation_bits : String
  signature : String
deriving Repr, DecidableEq

/-- Fields of the `BlobSidecar` variant of `EventData` (ffi.rs). -/
structure BlobSidecarEvent where
  peer_id : String
  slot : Nat
  epoch : Nat
  block_root : String
  parent_root : String
  state_root : String
  proposer_index : Nat
  blob_index : Nat
  timestamp_ms : Int
  message_id : String
  client : Option String
  topic : String
  message_size : Nat
deriving Repr, DecidableEq

/-- Fields of the `DataColumnSidecar` variant of `EventData` (ffi.rs). -/
structure DataColumnSidecarEvent where
  peer_id : String
  slot : Nat
  epoch : Nat
  block_root : String
  parent_root : String
  state_root : String
  proposer_index : Nat
  column_index : Nat
  kzg_commitments_count : Nat
  timestamp_ms : Int
  message_id : String
  client : Option String
  topic : String
  message_size : Nat
deriving Repr, DecidableEq

/-- Tagged union over event variants (ffi.rs, `enum EventData`). -/
inductive EventData where
  | beaconBlock (e : BeaconBlockEvent)
  | attestation (e : AttestationEvent)
  | aggregateAndProof (e : AggregateAndProofEvent)
  | blobSidecar (e : BlobSidecarEvent)
  | dataColumnSidecar (e : DataColumnSidecarEvent)
deriving Repr, DecidableEq

/-- Derived epoch field of an event, common to all five variants. -/
def EventData.epoch : EventData → Nat
  | .beaconBlock e => e.epoch
  | .attestation e => e.epoch
  | .aggregateAndProof e => e.epoch
  | .blobSidecar e => e.epoch
  | .dataColumnSidecar e => e.epoch

/-- State of a bounded multi-producer single-consumer channel, as created by
`crossbeam_channel::bounded::<EventData>(10000)` in observer_ffi.rs. -/
structure Channel (α : Type) where
  capacity : Nat
  queue : List α
  disconnected : Bool
deriving Repr, DecidableEq

/-- Immediate outcome of a blocking send on a bounded channel. -/
inductive SendResult (α : Type) where
  | sent (c : Channel α)
  | blocked
  | closed
deriving Repr, DecidableEq

/-- Blocking send at the crossbeam_channel library boundary (the external
channel crate used by observer_ffi.rs). Per the documented semantics of
`Sender::send` on a bounded channel: the send returns Err exactly when the
channel is disconnected; with spare capacity the message is appended at the
back (FIFO); while the channel is full and connected the calling thread is
suspended until space frees, which the `blocked` outcome records. -/
def Channel.send {α : Type} (c : Channel α) (x : α) : SendResult α :=
  if c.disconnected then .closed
  else if c.queue.length < c.capacity then .sent { c with queue := c.queue ++ [x] }
  else .blocked

/-- Result type for observer processing (overlay lib.rs, `enum ObserverResult`). -/
inductive ObserverResult where
  | ok
  | error (msg : String)
deriving Repr, DecidableEq

/-- Observable state of an `XatuObserver` (observer_ffi.rs): the atomic
readiness flag, the optional network info and the optional sender half of
the ingress channel (the sender is modelled by its presence; the channel
state itself is passed to each call explicitly). -/
structure XatuObserver where
  initialized : Bool
  network_info : Option NetworkInfo
  event_sender : Option Unit
deriving Repr, DecidableEq

/-- How a facade call interacted with the ingress channel. -/
inductive EnqueueOutcome where
  | enqueued
  | skippedNotInitialized
  | noNetworkInfo
  | noSender
  | droppedDisconnected
  | blockedOnFull
deriving Repr, DecidableEq

/-- Result of one facade call: the `ObserverResult` returned to the caller,
the channel state after the call, and the enqueue outcome. -/
structure ObsCall where
  result : ObserverResult
  channel : Channel EventData
  outcome : EnqueueOutcome
deriving Repr, DecidableEq

/-- Common tail of the five observer methods (observer_ffi.rs): if the
sender half exists, perform a channel send; a send error (disconnected
channel) is logged and the event dropped; in every case the method then
returns `ObserverResult::Ok`. In the `blocked` case the Rust call does not
return until space frees, after which it also returns Ok; the outcome field
records the suspension. -/
def send_event (obs : XatuObserver) (ch : Channel EventData) (event : EventData) : ObsCall :=
  match obs.event_sender with
  | none => { result := .ok, channel := ch, outcome := .noSender }
  | some _ =>
    match ch.send event with
    | .sent c2 => { result := .ok, channel := c2, outcome := .enqueued }
    | .blocked => { result := .ok, channel := ch, outcome := .blockedOnFull }
    | .closed => { result := .ok, channel := ch, outcome := .droppedDisconnected }

/-- Data extracted from the host notification by `on_gossip_block`
(observer_ffi.rs): roots and the message id are byte strings, the peer id
arrives already rendered as a string. -/
structure BlockInput where
  message_id : List Nat
  peer_id : String
  client : Option String
  slot : Nat
  block_root : List Nat
  proposer_index : Nat
  timestamp_millis : Nat
  topic : String
  message_size : Nat
deriving Repr, DecidableEq

/-- Source or target checkpoint of an attestation (epoch and root). -/
structure CheckpointData where
  epoch : Nat
  root : List Nat
deriving Repr, DecidableEq

/-- Data extracted by `on_gossip_attestation` (observer_ffi.rs). -/
structure AttestationInput where
  message_id : List Nat
  peer_id : String
  slot : Nat
  beacon_block_root : List Nat
  source : CheckpointData
  target : CheckpointData
  committee_index : Nat
  attester_index : Nat
  signature : List Nat
  subnet_id : Nat
  should_process : Bool
  timestamp_millis : Nat
  topic : String
  message_size : Nat
deriving Repr, DecidableEq

/-- Data extracted by `on_gossip_aggregate_and_proof` (observer_ffi.rs).
`committee_index_from_bits` models `aggregate.message().aggregate().committee_index()`
(the Electra committee-bits lookup) and `data_index` the pre-Electra
`attestation_data.index` fallback. -/
structure AggregateInput where
  message_id : List Nat
  peer_id : String
  slot : Nat
  beacon_block_root : List Nat
  source : CheckpointData
  target : CheckpointData
  aggregator_index : Nat
  committee_index_from_bits : Option Nat
  data_index : Nat
  aggregation_bits : List Nat
  signature : List Nat
  timestamp_millis : Nat
  topic : String
  message_size : Nat
deriving Repr, DecidableEq

/-- Data extracted by `on_gossip_blob_sidecar` (observer_ffi.rs). -/
structure BlobSidecarInput where
  message_id : List Nat
  peer_id : String
  client : Option String
  blob_index : Nat
  slot : Nat
  block_root : List Nat
  parent_root : List Nat
  state_root : List Nat
  proposer_index : Nat
  timestamp_millis : Nat
  topic : String
  message_size : Nat
deriving Repr, DecidableEq

/-- Data extracted by `on_gossip_data_column_sidecar` (observer_ffi.rs). -/
structure DataColumnInput where
  message_id : List Nat
  peer_id : String
  client : Option String
  slot : Nat
  block_root : List Nat
  parent_root : List Nat
  state_root : List Nat
  proposer_index : Nat
  column_index : Nat
  kzg_commitments_len : Nat
  timestamp_millis : Nat
  topic : String
  message_size : Nat
deriving Repr, DecidableEq

/-- Event record built by `on_gossip_block` (observer_ffi.rs, the
`EventData::BeaconBlock` construction). -/
def block_event (ni : NetworkInfo) (inp : BlockInput) : EventData :=
  .beaconBlock
    { peer_id := inp.peer_id,
      message_id := hex_encode inp.message_id,
      topic := inp.topic,
      message_size := u32_of_usize inp.message_size,
      timestamp_ms := i64_of_u64 inp.timestamp_millis,
      slot := inp.slot,
      epoch := inp.slot / ni.slots_per_epoch,
      block_root := hex0x inp.block_root,
      proposer_index := inp.proposer_index }

/-- Event record built by `on_gossip_attestation` (observer_ffi.rs). For a
single attestation the aggregation bits are the literal string `0x`. -/
def attestation_event (ni : NetworkInfo) (inp : AttestationInput) : EventData :=
  .attestation
    { peer_id := inp.peer_id,
      slot := inp.slot,
      epoch := inp.slot / ni.slots_per_epoch,
      attestation_data_root := hex0x inp.beacon_block_root,
      subnet_id := inp.subnet_id,
      timestamp := i64_of_u64 inp.timestamp_millis,
      message_id := hex_encode inp.message_id,
      should_process := inp.should_process,
      topic := inp.topic,
      message_size := u32_of_usize inp.message_size,
      source_epoch := inp.source.epoch,
      source_root := hex0x inp.source.root,
      target_epoch := inp.target.epoch,
      target_root := hex0x inp.target.root,
      committee_index := inp.committee_index,
      aggregation_bits := "0x",
      signature := hex0x inp.signature,
      attester_index := inp.attester_index }

/-- Event record built by `on_gossip_aggregate_and_proof` (observer_ffi.rs).
The committee index is taken from the committee bits when available,
falling back to the attestation data index (`unwrap_or`). -/
def aggregate_event (ni : NetworkInfo) (inp : AggregateInput) : EventData :=
  .aggregateAndProof
    { peer_id := inp.peer_id,
      slot := inp.slot,
      epoch := inp.slot / ni.slots_per_epoch,
      attestation_data_root := hex0x inp.beacon_block_root,
      aggregator_index := inp.aggregator_index,
      timestamp := i64_of_u64 inp.timestamp_millis,
      message_id := hex_encode inp.message_id,
      topic := inp.topic,
      message_size := u32_of_usize inp.message_size,
      source_epoch := inp.source.epoch,
      source_root := hex0x inp.source.root,
      target_epoch := inp.target.epoch,
      target_root := hex0x inp.target.root,
      committee_index := inp.committee_index_from_bits.getD inp.data_index,
      aggregation_bits := hex0x inp.aggregation_bits,
      signature := hex0x inp.signature }

/-- Event record built by `on_gossip_blob_sidecar` (observer_ffi.rs). -/
def blob_event (ni : NetworkInfo) (inp : BlobSidecarInput) : EventData :=
  .blobSidecar
    { peer_id := inp.peer_id,
      slot := inp.slot,
      epoch := inp.slot / ni.slots_per_epoch,
      block_root := hex0x inp.block_root,
      parent_root := hex0x inp.parent_root,
      state_root := hex0x inp.state_root,
      proposer_index := inp.proposer_index,
      blob_index := inp.blob_index,
      timestamp_ms := i64_of_u64 inp.timestamp_millis,
      message_id := hex_encode inp.message_id,
      client := inp.client,
      topic := inp.topic,
      message_size := u32_of_usize inp.message_size }

/-- Event record built by `on_gossip_data_column_sidecar` (observer_ffi.rs).
The commitment count is the length of the kzg commitment list cast to u32. -/
def data_column_event (ni : NetworkInfo) (inp : DataColumnInput) : EventData :=
  .dataColumnSidecar
    { peer_id := inp.peer_id,
      slot := inp.slot,
      epoch := inp.slot / ni.slots_per_epoch,
      block_root := hex0x inp.block_root,
      parent_root := hex0x inp.parent_root,
      state_root := hex0x inp.state_root,
      proposer_index := inp.proposer_index,
      column_index := inp.column_index,
      kzg_commitments_count := u32_of_usize inp.kzg_commitments_len,
      timestamp_ms := i64_of_u64 inp.timestamp_millis,
      message_id := hex_encode inp.message_id,
      client := inp.client,
      topic := inp.topic,
      message_size := u32_of_usize inp.message_size }

/-- Facade entry point for gossip blocks (observer_ffi.rs,
`on_gossip_block`): gate on the readiness flag, require network info,
build the event, enqueue. -/
def XatuObserver.on_gossip_block (obs : XatuObserver) (ch : Channel EventData)
    (inp : BlockInput) : ObsCall :=
  if obs.initialized = false then
    { result := .ok, channel := ch, outcome := .skippedNotInitialized }
  else
    match obs.network_info with
    | none => { result := .error "Network info not available", channel := ch, outcome := .noNetworkInfo }
    | some ni => send_event obs ch (block_event ni inp)

/-- Facade entry point for gossip attestations (observer_ffi.rs,
`on_gossip_attestation`). -/
def XatuObserver.on_gossip_attestation (obs : XatuObserver) (ch : Channel EventData)
    (inp : AttestationInput) : ObsCall :=
  if obs.initialized = false then
    { result := .ok, channel := ch, outcome := .skippedNotInitialized }
  else
    match obs.network_info with
    | none => { result := .error "Network info not available", channel := ch, outcome := .noNetworkInfo }
    | some ni => send_event obs ch (attestation_event ni inp)

/-- Facade entry point for gossip aggregates (observer_ffi.rs,
`on_gossip_aggregate_and_proof`). -/
def XatuObserver.on_gossip_aggregate_and_proof (obs : XatuObserver) (ch : Channel EventData)
    (inp : AggregateInput) : ObsCall :=
  if obs.initialized = false then
    { result := .ok, channel := ch, outcome := .skippedNotInitialized }
  else
    match obs.network_info with
    | none => { result := .error "Network info not available", channel := ch, outcome := .noNetworkInfo }
    | some ni => send_event obs ch (aggregate_event ni inp)

/-- Facade entry point for gossip blob sidecars (observer_ffi.rs,
`on_gossip_blob_sidecar`). -/
def XatuObserver.on_gossip_blob_sidecar (obs : XatuObserver) (ch : Channel EventData)
    (inp : BlobSidecarInput) : ObsCall :=
  if obs.initialized = false then
    { result := .ok, channel := ch, outcome := .skippedNotInitialized }
  else
    match obs.network_info with
    | none => { result := .error "Network info not available", channel := ch, outcome := .noNetworkInfo }
    | some ni => send_event obs ch (blob_event ni inp)

/-- Facade entry point for gossip data column sidecars (observer_ffi.rs,
`on_gossip_data_column_sidecar`). -/
def XatuObserver.on_gossip_data_column_sidecar (obs : XatuObserver) (ch : Channel EventData)
    (inp : DataColumnInput) : ObsCall :=
  if obs.initialized = false then
    { result := .ok, channel := ch, outcome := .skippedNotInitialized }
  else
    match obs.network_info with
    | none => { result := .error "Network info not available", channel := ch, outcome := .noNetworkInfo }
    | some ni => send_event obs ch (data_column_event ni inp)

/-- Size threshold of the in-progress batch (observer_ffi.rs: the literal
10000 in the scheduler loop and the channel bound). -/
def batch_size_limit : Nat := 10000

/-- Time threshold of the scheduler in milliseconds
(observer_ffi.rs: `Duration::from_secs(1)`). -/
def batch_interval_ms : Nat := 1000

/-- Capacity of the ingress channel (observer_ffi.rs: `bounded::<EventData>(10000)`). -/
def channel_capacity : Nat := 10000

/-- Mutable state of the batch scheduler loop (observer_ffi.rs, the local
variables of the spawned thread). Times are in milliseconds. -/
structure SchedState (α : Type) where
  event_batch : List α
  total_events_processed : Nat
  total_batches_sent : Nat
  last_batch_time : Nat
deriving Repr, DecidableEq

/-- Outcome of `event_receiver.recv_timeout(timeout)` in one loop iteration. -/
inductive RecvOutcome (α : Type) where
  | ok (e : α)
  | timeout
  | disconnected
deriving Repr, DecidableEq

/-- Result of one scheduler loop iteration: the new state, the batch passed
to `send_event_batch` during this iteration (if any), and whether the loop
terminates. -/
structure IterOut (α : Type) where
  sched : SchedState α
  flushed : Option (List α)
  stop : Bool
deriving Repr, DecidableEq

/-- One iteration of the scheduler loop (observer_ffi.rs, the `loop` body
inside `new_with_full_config`). `now` is the instant sampled at the top of
the iteration, `recv` the outcome of the receive with timeout, `send_ok`
whether `XatuFFI::send_event_batch` succeeds if it is called. On a received
event the batch is extended and flushed when it reaches the size limit; on
a receive timeout the batch is flushed when at least the interval elapsed
since the last flush, the batch is non-empty and the readiness flag is set;
on disconnection the loop stops. A failed send is only logged: the batch
was already taken out of the accumulator and the counters stay unchanged. -/
def scheduler_step {α : Type} (initialized : Bool) (now : Nat) (recv : RecvOutcome α)
    (s : SchedState α) (send_ok : Bool) : IterOut α :=
  let time_since_last_batch := now - s.last_batch_time
  match recv with
  | .ok e =>
    let event_batch := s.event_batch ++ [e]
    if batch_size_limit ≤ event_batch.length then
      { sched :=
          { event_batch := [],
            total_events_processed :=
              if send_ok then s.total_events_processed + event_batch.length
              else s.total_events_processed,
            total_batches_sent :=
              if send_ok then s.total_batches_sent + 1 else s.total_batches_sent,
            last_batch_time := now },
        flushed := some event_batch,
        stop := false }
    else
      { sched := { s with event_batch := event_batch }, flushed := none, stop := false }
  | .timeout =>
    if decide (batch_interval_ms ≤ time_since_last_batch) && !s.event_batch.isEmpty
        && initialized then
      { sched :=
          { event_batch := [],
            total_events_processed :=
              if send_ok then s.total_events_processed + s.event_batch.length
              else s.total_events_processed,
            total_batches_sent :=
              if send_ok then s.total_batches_sent + 1 else s.total_batches_sent,
            last_batch_time := now },
        flushed := some s.event_batch,
        stop := false }
    else
      { sched := s, flushed := none, stop := false }
  | .disconnected => { sched := s, flushed := none, stop := true }

/-- Combined state of the ingress channel and the scheduler, together with
the history of batches passed to `send_event_batch` (`flushed`, oldest
first) and of events accepted by the channel (`accepted`, in enqueue
order). -/
structure SystemState (α : Type) where
  queue : List α
  sched : SchedState α
  flushed : List (List α)
  accepted : List α
deriving Repr, DecidableEq

/-- One atomic happening of the producer-consumer system: a producer send
reaching the channel, or one scheduler loop iteration at instant `now`. -/
inductive SysEvent (α : Type) where
  | enqueue (e : α)
  | tick (now : Nat)
deriving Repr, DecidableEq

/-- Transition of the combined system. A producer send appends the event
when the bounded channel has spare capacity (with a full channel the
blocking send keeps the producer waiting and nothing enters the system). A
scheduler iteration receives the oldest queued event if there is one, and
otherwise times out; the loop runs only after initialization succeeded, so
the readiness flag is true, and `send_ok` is fixed to true (send failures
route the batch identically and differ only in the counters). -/
def sys_step {α : Type} (st : SystemState α) : SysEvent α → SystemState α
  | .enqueue e =>
    if st.queue.length < channel_capacity then
      { st with queue := st.queue ++ [e], accepted := st.accepted ++ [e] }
    else st
  | .tick now =>
    match st.queue with
    | [] =>
      let r := scheduler_step true now RecvOutcome.timeout st.sched true
      { st with sched := r.sched, flushed := st.flushed ++ r.flushed.toList }
    | e :: rest =>
      let r := scheduler_step true now (RecvOutcome.ok e) st.sched true
      { st with queue := rest, sched := r.sched, flushed := st.flushed ++ r.flushed.toList }

/-- Run of the combined system over a list of happenings. -/
def sys_run {α : Type} (st : SystemState α) : List (SysEvent α) → SystemState α
  | [] => st
  | ev :: evs => sys_run (sys_step st ev) evs

/-- Initial system state: empty channel, empty batch, counters and the last
flush instant at zero, no batch sent yet. -/
def init_state (α : Type) : SystemState α :=
  { queue := [],
    sched := { event_batch := [], total_events_processed := 0,
               total_batches_sent := 0, last_batch_time := 0 },
    flushed := [],
    accepted := [] }

/-- Events offered by producers in a list of happenings, in order. -/
def enqueued_of {α : Type} (evs : List (SysEvent α)) : List α :=
  evs.filterMap (fun ev => match ev with | .enqueue e => some e | .tick _ => none)

/-- Mapping of the extern `Init` return code to the typed result
(ffi.rs, the match inside `XatuFFI::init_with_runtime`). -/
def XatuFFI.init_result_of_code (code : Int) : Except String Unit :=
  if code = 0 then .ok ()
  else if code = -1 then .error "Failed to parse configuration"
  else if code = -2 then .error "Failed to create sink"
  else if code = -3 then .error "Failed to start sink"
  else if code = -4 then .error "Network info not provided"
  else .error ("Failed to initialize: error code " ++ toString code)

/-- Bridge initialization (ffi.rs, `XatuFFI::init_with_runtime`): serialize
the configuration (the serde_yaml outcome is the oracle `serialized`), then
call the extern `Init` under the process-wide mutex and map its return code.
Mutex poisoning and CString interior-nul failures are environment failures
outside the model. -/
def XatuFFI.init_with_runtime (serialized : Except String String) (code : Int) :
    Except String Unit :=
  match serialized with
  | .error e => .error ("Failed to serialize config: " ++ e)
  | .ok _ => XatuFFI.init_result_of_code code

/-- Contact made with the external sink through the extern boundary of
ffi.rs. -/
inductive SinkCall where
  | init
  | sendBatch (n : Nat)
  | shutdown
deriving Repr, DecidableEq

/-- Bridge shutdown (ffi.rs, `XatuFFI::close`): unconditionally forwards
one extern `Shutdown()` call to the sink. The sink-contact history is
threaded explicitly; `close` has no error channel. -/
def XatuFFI.close (sink_trace : List SinkCall) : List SinkCall :=
  sink_trace ++ [SinkCall.shutdown]

/-- Effect of calling `XatuFFI::close` n times in sequence. -/
def XatuFFI.close_n : Nat → List SinkCall → List SinkCall
  | 0, t => t
  | n + 1, t => XatuFFI.close_n n (XatuFFI.close t)

/-- Drop handler of the observer (observer_ffi.rs, `impl Drop for
XatuObserver`): forwards to `XatuFFI::close` only when the readiness flag
is set. -/
def XatuObserver.drop_run (obs : XatuObserver) (sink_trace : List SinkCall) :
    List SinkCall :=
  if obs.initialized then XatuFFI.close sink_trace else sink_trace

/-- Process environment and external outcomes consumed by the
initialization paths: the `XATU_CONFIG` variable together with the
`XatuConfig::from_file` outcome when it is set, the `DISABLE_XATU`
variable, the `RUST_LOG` variable, the compile-time crate version, and the
outcome of `XatuFFI::init_with_runtime` on the dedicated thread as a
function of the configuration it is given. -/
structure Env where
  xatu_config : Option (Except String XatuConfig)
  disable_xatu : Bool
  rust_log : Option String
  cargo_pkg_version : String
  ffi_init : FullConfigWithRuntime → Except String Unit

/-- Whether the first character list is a leading segment of the second. -/
def chars_start_with : List Char → List Char → Bool
  | [], _ => true
  | _ :: _, [] => false
  | p :: ps, c :: cs => p == c && chars_start_with ps cs

/-- Whether the pattern occurs somewhere in the character list. -/
def chars_contain (pat : List Char) : List Char → Bool
  | [] => pat.isEmpty
  | c :: cs => chars_start_with pat (c :: cs) || chars_contain pat cs

/-- Substring test on strings, as used by the `RUST_LOG` parsing. -/
def str_contains (s pat : String) : Bool :=
  chars_contain pat.toList s.toList

/-- Log level derivation from `RUST_LOG` (observer_ffi.rs,
`new_with_full_config` lines building `log_level`): the closure always
produces some level, and an unset variable falls back to `info`. -/
def log_level_of (rust_log : Option String) : Option String :=
  match rust_log with
  | some s =>
    if str_contains s "trace" then some "trace"
    else if str_contains s "debug" then some "debug"
    else if str_contains s "info" then some "info"
    else if str_contains s "warn" then some "warn"
    else if str_contains s "error" then some "error"
    else some "info"
  | none => some "info"

/-- Configuration assembled by `new_with_full_config` before the network
info check (observer_ffi.rs): missing network info is papered over with
defaults at this point (0, 12, 32, unknown). -/
def build_config_with_runtime (env : Env) (full_config : FullConfig)
    (network_info : Option NetworkInfo) : FullConfigWithRuntime :=
  { log_level := log_level_of env.rust_log,
    processor :=
      { name := (full_config.node.map NodeConfig.name).getD "lighthouse",
        outputs := full_config.outputs,
        ethereum :=
          { implementation := "lighthouse",
            genesis_time := (network_info.map NetworkInfo.genesis_time).getD 0,
            seconds_per_slot := (network_info.map NetworkInfo.seconds_per_slot).getD 12,
            slots_per_epoch := (network_info.map NetworkInfo.slots_per_epoch).getD 32,
            network :=
              { name := (network_info.map NetworkInfo.network_name).getD "unknown",
                id := (network_info.map NetworkInfo.network_id).getD 0 } },
        client := { name := "lighthouse", version := env.cargo_pkg_version },
        ntp_server := full_config.ntp_server } }

/-- Observer construction (observer_ffi.rs, `XatuObserver::new_with_full_config`):
build the runtime configuration, fail immediately when network info is
missing, then wait for the initialization result of the dedicated thread;
on success the readiness flag has been set and the observer holds the
sender half of the ingress channel. -/
def XatuObserver.new_with_full_config (env : Env) (full_config : FullConfig)
    (network_info : Option NetworkInfo) : Except String XatuObserver :=
  let config_with_runtime := build_config_with_runtime env full_config network_info
  if network_info.isNone then
    .error "Network info is required for Xatu initialization"
  else
    match env.ffi_init config_with_runtime with
    | .ok () => .ok { initialized := true, network_info := network_info, event_sender := some () }
    | .error e => .error ("Failed to initialize Xatu FFI: " ++ e)

/-- Return-or-panic outcome of a Rust call (the shim functions abort the
process through an explicit panic on construction failure). -/
inductive RustOutcome (α : Type) where
  | ret (a : α)
  | panicked (msg : String)

/-- Exporter creation without network info (shim.rs,
`create_exporter_from_config`): disabled configurations yield no exporter;
a construction failure panics. -/
def create_exporter_from_config (env : Env) (config : XatuConfig) :
    RustOutcome (Option XatuObserver) :=
  if config.is_enabled = false then .ret none
  else
    match XatuObserver.new_with_full_config env config.get_full_config none with
    | .ok m => .ret (some m)
    | .error e => .panicked ("Failed to initialize Xatu: " ++ e)

/-- Exporter creation with network info (shim.rs,
`create_exporter_with_network_info`). -/
def create_exporter_with_network_info (env : Env) (config : XatuConfig)
    (network_info : NetworkInfo) : RustOutcome (Option XatuObserver) :=
  if config.is_enabled = false then .ret none
  else
    match XatuObserver.new_with_full_config env config.get_full_config (some network_info) with
    | .ok m => .ret (some m)
    | .error e =>
      .panicked ("FATAL: Failed to initialize Xatu - network info is required but initialization failed: " ++ e)

/-- Configuration discovery shared by both init paths (init.rs, the `config`
binding of `init` and `init_with_chain_spec_and_genesis`): a set
`XATU_CONFIG` is loaded from file, and a load or parse failure is logged
and replaced with the default enabled configuration; an unset variable
yields the default enabled configuration unless `DISABLE_XATU` is set, in
which case discovery reports no configuration (the caller returns early
with no observer). -/
def config_from_env (env : Env) : Option XatuConfig :=
  match env.xatu_config with
  | some (.ok cfg) => some cfg
  | some (.error _) => some XatuConfig.enabled_config
  | none => if env.disable_xatu then none else some XatuConfig.enabled_config

/-- Plain initialization path (init.rs, `init`). -/
def init (env : Env) : RustOutcome (Option XatuObserver) :=
  match config_from_env env with
  | none => .ret none
  | some config =>
    if config.is_enabled = false then .ret none
    else create_exporter_from_config env config

/-- Chain-spec facts consumed by `init_with_chain_spec_and_genesis`
(init.rs): the configuration name, the deposit network id and the slot
duration; slots per epoch comes from the `EthSpec` type parameter and is
passed explicitly. -/
structure ChainSpecInfo where
  config_name : Option String
  deposit_network_id : Nat
  seconds_per_slot : Nat
deriving Repr, DecidableEq

/-- Network-name resolution (init.rs, the `network_name` binding): a
configured override wins, otherwise the chain-spec configuration name,
defaulting to `unknown`. -/
def network_name_of (config : XatuConfig) (spec : ChainSpecInfo) : String :=
  match config.ethereum with
  | some eth =>
    match eth.override_network_name with
    | some n => n
    | none => spec.config_name.getD "unknown"
  | none => spec.config_name.getD "unknown"

/-- Initialization with chain spec and explicit genesis time (init.rs,
`init_with_chain_spec_and_genesis`). -/
def init_with_chain_spec_and_genesis (env : Env) (spec : ChainSpecInfo)
    (slots_per_epoch : Nat) (genesis_time : Nat) :
    RustOutcome (Except String (Option XatuObserver)) :=
  match config_from_env env with
  | none => .ret (.ok none)
  | some config =>
    if config.is_enabled = false then .ret (.ok none)
    else
      let network_info : NetworkInfo :=
        { genesis_time := genesis_time,
          network_name := network_name_of config spec,
          network_id := spec.deposit_network_id,
          slots_per_epoch := slots_per_epoch,
          seconds_per_slot := spec.seconds_per_slot }
      match create_exporter_with_network_info env config network_info with
      | .ret (some exp) => .ret (.ok (some exp))
      | .ret none => .ret (.error "Failed to create Xatu exporter - network info may be invalid")
      | .panicked m => .panicked m

/-- Accounting invariant of the combined system: every event accepted by
the channel is, at any instant, in exactly one place - already inside a
flushed batch, in the in-progress batch, or still queued - and the
concatenation in that order lists the accepted events in enqueue order. -/
def sys_invariant {α : Type} (st : SystemState α) : Prop :=
  st.flushed.flatten ++ st.sched.event_batch ++ st.queue = st.accepted

/-- Sample network context (mainnet figures). -/
def sample_network_info : NetworkInfo :=
  { genesis_time := 1606824023, network_name := "mainnet", network_id := 1,
    slots_per_epoch := 32, seconds_per_slot := 12 }

/-- Sample gossip-block notification at slot 65. -/
def sample_block_input : BlockInput :=
  { message_id := [18, 52], peer_id := "peer-a", client := none, slot := 65,
    block_root := [171, 205], proposer_index := 7,
    timestamp_millis := 1700000000000,
    topic := "beacon_block", message_size := 123456 }

/-- Sample gossip-block notification exactly on an epoch boundary. -/
def boundary_block_input : BlockInput :=
  { sample_block_input with slot := 32 }

/-- Sample event record. -/
def sample_event : EventData :=
  block_event sample_network_info sample_block_input

/-- Observer whose initialization completed. -/
def sample_observer : XatuObserver :=
  { initialized := true, network_info := some sample_network_info,
    event_sender := some () }

/-- Observer whose readiness flag is still false. -/
def unready_observer : XatuObserver :=
  { initialized := false, network_info := some sample_network_info,
    event_sender := some () }

/-- Ingress channel filled to its fixed capacity, consumer alive. -/
def full_channel : Channel EventData :=
  { capacity := channel_capacity,
    queue := List.replicate channel_capacity sample_event,
    disconnected := false }

/-- Empty ingress channel, consumer alive. -/
def empty_channel : Channel EventData :=
  { capacity := channel_capacity, queue := [], disconnected := false }

/-- Environment in which `XATU_CONFIG` points at a malformed file: the file
load reports a parse failure, nothing else is special and the sink
initializes fine. -/
def parse_failure_env : Env :=
  { xatu_config := some (Except.error "Failed to parse config file: invalid type"),
    disable_xatu := false, rust_log := none, cargo_pkg_version := "7.0.1",
    ffi_init := fun _ => Except.ok () }

/-- Environment with no configuration file and a succeeding sink. -/
def ok_env : Env :=
  { xatu_config := none, disable_xatu := false, rust_log := none,
    cargo_pkg_version := "7.0.1", ffi_init := fun _ => Except.ok () }

/-- Chain-spec facts of mainnet. -/
def sample_chain_spec : ChainSpecInfo :=
  { config_name := some "mainnet", deposit_network_id := 1, seconds_per_slot := 12 }

/-- A second, distinct sample event (block at the epoch boundary). -/
def other_event : EventData :=
  block_event sample_network_info boundary_block_input

/-- Scheduler state one event short of the size threshold. -/
def near_full_sched : SchedState Nat :=
  { event_batch := List.replicate 9999 0, total_events_processed := 0,
    total_batches_sent := 0, last_batch_time := 0 }

/-- Size-and-bound invariant of the combined system: the in-progress batch
stays strictly below the size threshold between iterations, and every batch
ever passed to `send_event_batch` holds at most the threshold. -/
def batch_bound_invariant {α : Type} (st : SystemState α) : Prop :=
  st.sched.event_batch.length < batch_size_limit
  ∧ ∀ b ∈ st.flushed, b.length ≤ batch_size_limit

/-- The five observer methods all return `ObserverResult::Ok` from the
enqueue tail, whatever the channel does (observer_ffi.rs: a send error is
only logged). -/
theorem send_event_result_ok (obs : XatuObserver) (ch : Channel EventData)
    (event : EventData) : (send_event obs ch event).result = ObserverResult.ok := by
  cases hs : obs.event_sender with
  | none => simp [send_event, hs]
  | some u => cases hr : ch.send event <;> simp [send_event, hs, hr]

/-- C5: construction with `network_info = None` always fails with the
dedicated message, before any sink contact, and the bridge maps the sink
code -4 to the typed missing-network-info failure. -/
theorem c5_missing_network_info_fails :
    (∀ (env : Env) (full_config : FullConfig),
      XatuObserver.new_with_full_config env full_config none
        = Except.error "Network info is required for Xatu initialization")
    ∧ XatuFFI.init_result_of_code (-4) = Except.error "Network info not provided"
    ∧ (∀ s : String, XatuFFI.init_with_runtime (Except.ok s) (-4)
        = Except.error "Network info not provided") := by
  exact ⟨fun env fc => rfl, rfl, fun s => rfl⟩

/-- C9 counterexample: two shutdown calls are not the same as one; the sink
receives one Shutdown contact per call, so after two calls the Shutdown
count is two. -/
theorem c9_counterexample :
    XatuFFI.close_n 2 [] ≠ XatuFFI.close_n 1 []
    ∧ (XatuFFI.close_n 2 []).count SinkCall.shutdown = 2
    ∧ (XatuFFI.close_n 1 []).count SinkCall.shutdown = 1 := by
  refine ⟨by decide, by decide, by decide⟩

/-- C9 amended: a shutdown call produces no error (close has no error
channel) but is not deduplicated: every `XatuFFI::close` call forwards
exactly one Shutdown notification to the sink, n calls forward n, and the
observer drop handler forwards one exactly when the readiness flag is set. -/
theorem c9_close_forwards_each_call :
    (∀ t : List SinkCall, XatuFFI.close t = t ++ [SinkCall.shutdown])
    ∧ (∀ (n : Nat) (t : List SinkCall),
        (XatuFFI.close_n n t).count SinkCall.shutdown
          = t.count SinkCall.shutdown + n)
    ∧ (∀ (obs : XatuObserver) (t : List SinkCall),
        XatuObserver.drop_run obs t
          = if obs.initialized then t ++ [SinkCall.shutdown] else t) := by
  refine ⟨fun t => rfl, ?_, fun obs t => rfl⟩
  intro n
  induction n with
  | zero => intro t; simp [XatuFFI.close_n]
  | succ n ih =>
    intro t
    rw [XatuFFI.close_n, ih, XatuFFI.close]
    simp [List.count_append]
    omega

/-- C4 counterexample: with a malformed configuration file (the file load
reports a parse failure) and an otherwise healthy environment,
`init_with_chain_spec_and_genesis` succeeds and returns a fully enabled
observer - the parse failure is not surfaced to the caller. -/
theorem c4_counterexample :
    init_with_chain_spec_and_genesis parse_failure_env sample_chain_spec 32 1606824023
      = RustOutcome.ret (Except.ok (some sample_observer)) := by
  rfl

/-- C4 amended: a configuration load or parse failure is logged and
replaced by the default enabled configuration: configuration discovery
yields `XatuConfig::enabled()`, and both initialization paths behave
exactly as if the file had parsed to that default - the parse error is
never surfaced to the caller that requested startup. -/
theorem c4_parse_failure_falls_back
    (env : Env) (spec : ChainSpecInfo) (spe gt : Nat) (msg : String)
    (h : env.xatu_config = some (Except.error msg)) :
    config_from_env env = some XatuConfig.enabled_config
    ∧ init_with_chain_spec_and_genesis env spec spe gt
        = init_with_chain_spec_and_genesis
            { env with xatu_config := some (Except.ok XatuConfig.enabled_config) }
            spec spe gt
    ∧ init env
        = init { env with xatu_config := some (Except.ok XatuConfig.enabled_config) } := by
  refine ⟨?_, ?_, ?_⟩
  · simp [config_from_env, h]
  · simp only [init_with_chain_spec_and_genesis, config_from_env, h]
    rfl
  · simp only [init, config_from_env, h]
    rfl

/-- C4 witness: the amended statement instantiated in the malformed-file
environment. -/
theorem c4_parse_failure_falls_back_witness :
    config_from_env parse_failure_env = some XatuConfig.enabled_config
    ∧ init_with_chain_spec_and_genesis parse_failure_env sample_chain_spec 32 1606824023
        = init_with_chain_spec_and_genesis
            { parse_failure_env with
                xatu_config := some (Except.ok XatuConfig.enabled_config) }
            sample_chain_spec 32 1606824023
    ∧ init parse_failure_env
        = init { parse_failure_env with
                   xatu_config := some (Except.ok XatuConfig.enabled_config) } :=
  c4_parse_failure_falls_back parse_failure_env sample_chain_spec 32 1606824023
    "Failed to parse config file: invalid type" rfl

/-- C1 counterexample: on a fully initialized observer with the ingress
channel at its fixed capacity of 10000 and the consumer alive, a gossip
block call does not fail fast and does not drop the event - the producer is
suspended in the blocking send. -/
theorem c1_counterexample :
    sample_observer.initialized = true
    ∧ full_channel.queue.length = channel_capacity
    ∧ full_channel.disconnected = false
    ∧ (sample_observer.on_gossip_block full_channel sample_block_input).outcome
        = EnqueueOutcome.blockedOnFull := by
  refine ⟨rfl, by simp [full_channel, List.length_replicate], rfl, ?_⟩
  simp [sample_observer, full_channel, XatuObserver.on_gossip_block, send_event,
    Channel.send, List.length_replicate]

/-- C1 amended: the enqueue of every observer-facade call is a blocking
send, not a fail-fast one. Each of the five methods on an initialized
observer delegates to the common enqueue tail, and that tail suspends the
producer while the channel is full and connected, drops the event (logged,
returning Ok) only when the channel is disconnected, and appends the event
in FIFO position when capacity is available. -/
theorem c1_send_is_blocking :
    (∀ (obs : XatuObserver) (ch : Channel EventData) (event : EventData),
      obs.event_sender = some () →
      (ch.disconnected = false → ¬ ch.queue.length < ch.capacity →
        send_event obs ch event
          = { result := .ok, channel := ch, outcome := .blockedOnFull })
      ∧ (ch.disconnected = true →
        send_event obs ch event
          = { result := .ok, channel := ch, outcome := .droppedDisconnected })
      ∧ (ch.disconnected = false → ch.queue.length < ch.capacity →
        send_event obs ch event
          = { result := .ok, channel := { ch with queue := ch.queue ++ [event] },
              outcome := .enqueued }))
    ∧ (∀ (obs : XatuObserver) (ch : Channel EventData) (ni : NetworkInfo),
      obs.initialized = true → obs.network_info = some ni →
      (∀ inp, obs.on_gossip_block ch inp = send_event obs ch (block_event ni inp))
      ∧ (∀ inp, obs.on_gossip_attestation ch inp
          = send_event obs ch (attestation_event ni inp))
      ∧ (∀ inp, obs.on_gossip_aggregate_and_proof ch inp
          = send_event obs ch (aggregate_event ni inp))
      ∧ (∀ inp, obs.on_gossip_blob_sidecar ch inp
          = send_event obs ch (blob_event ni inp))
      ∧ (∀ inp, obs.on_gossip_data_column_sidecar ch inp
          = send_event obs ch (data_column_event ni inp))) := by
  constructor
  · intro obs ch event hs
    refine ⟨?_, ?_, ?_⟩
    · intro hd hf
      simp [send_event, hs, Channel.send, hd, hf]
    · intro hd
      simp [send_event, hs, Channel.send, hd]
    · intro hd hf
      simp [send_event, hs, Channel.send, hd, hf]
  · intro obs ch ni hinit hni
    refine ⟨?_, ?_, ?_, ?_, ?_⟩ <;> intro inp <;>
      simp [XatuObserver.on_gossip_block, XatuObserver.on_gossip_attestation,
        XatuObserver.on_gossip_aggregate_and_proof, XatuObserver.on_gossip_blob_sidecar,
        XatuObserver.on_gossip_data_column_sidecar, hinit, hni]

/-- C1 witness: the blocking-send behaviour instantiated on the sample
observer, the full channel and the sample block input. -/
theorem c1_send_is_blocking_witness :
    send_event sample_observer full_channel sample_event
      = { result := .ok, channel := full_channel, outcome := .blockedOnFull }
    ∧ sample_observer.on_gossip_block full_channel sample_block_input
        = send_event sample_observer full_channel
            (block_event sample_network_info sample_block_input) :=
  ⟨(c1_send_is_blocking.1 sample_observer full_channel sample_event rfl).1 rfl
      (by simp [full_channel, List.length_replicate]),
   (c1_send_is_blocking.2 sample_observer full_channel sample_network_info rfl rfl).1
      sample_block_input⟩

/-- C2 counterexample: a scheduler iteration that receives an event while
more than the time threshold has elapsed since the last flush, with a
non-empty batch and the bridge initialized, performs no flush at all - the
time trigger is not evaluated in the receive branch, so a sufficiently fast
event stream starves it. -/
theorem c2_counterexample :
    batch_interval_ms ≤ 2000 - 0
    ∧ ([0] : List Nat) ≠ []
    ∧ (scheduler_step true 2000 (RecvOutcome.ok 1)
        { event_batch := [0], total_events_processed := 0,
          total_batches_sent := 0, last_batch_time := 0 } true).flushed = none
    ∧ (scheduler_step true 2000 (RecvOutcome.ok 1)
        { event_batch := [0], total_events_processed := 0,
          total_batches_sent := 0, last_batch_time := 0 } true).sched.event_batch
        = [0, 1] := by
  refine ⟨by decide, by decide, by decide, by decide⟩

/-- C2 amended: the two triggers are not both re-evaluated on every
iteration. A scheduler iteration flushes exactly when either an event was
received and the grown batch reached the size threshold, or the receive
timed out with at least the time threshold elapsed since the last flush, a
non-empty batch and the readiness flag set; in particular the time trigger
can only fire in the timeout branch. -/
theorem c2_flush_iff (α : Type) (initialized : Bool) (now : Nat)
    (recv : RecvOutcome α) (s : SchedState α) (send_ok : Bool) :
    (scheduler_step initialized now recv s send_ok).flushed ≠ none ↔
      ((∃ e, recv = RecvOutcome.ok e
          ∧ batch_size_limit ≤ s.event_batch.length + 1)
       ∨ (recv = RecvOutcome.timeout
          ∧ batch_interval_ms ≤ now - s.last_batch_time
          ∧ s.event_batch ≠ [] ∧ initialized = true)) := by
  cases recv with
  | ok e =>
    simp only [scheduler_step]
    split
    · rename_i hle
      simp only [List.length_append, List.length_singleton] at hle
      simp [hle]
    · rename_i hle
      simp only [List.length_append, List.length_singleton] at hle
      simp [hle]
  | timeout =>
    simp only [scheduler_step]
    split
    · rename_i hc
      simp only [Bool.and_eq_true, decide_eq_true_eq, Bool.not_eq_true',
        List.isEmpty_eq_false] at hc
      simp [hc.1.1, hc.1.2, hc.2]
    · rename_i hc
      rw [Bool.and_eq_true, Bool.and_eq_true, decide_eq_true_eq, Bool.not_eq_true',
        List.isEmpty_eq_false] at hc
      simp only [ne_eq, not_true_eq_false, false_iff, not_or]
      refine ⟨?_, ?_⟩
      · rintro ⟨e, he, hb⟩
        cases he
      · rintro ⟨heq, h1, h2, h3⟩
        exact hc ⟨⟨h1, h2⟩, h3⟩
  | disconnected =>
    simp [scheduler_step]

/-- A tick never changes the accepted-event history. -/
theorem sys_step_tick_accepted {α : Type} (st : SystemState α) (now : Nat) :
    (sys_step st (SysEvent.tick now)).accepted = st.accepted := by
  cases hq : st.queue <;> simp [sys_step, hq]

/-- One system transition preserves the accounting invariant. -/
theorem sys_invariant_step {α : Type} (st : SystemState α) (ev : SysEvent α)
    (h : sys_invariant st) : sys_invariant (sys_step st ev) := by
  cases ev with
  | enqueue e =>
    by_cases hc : st.queue.length < channel_capacity
    · simp only [sys_invariant, sys_step, if_pos hc] at h ⊢
      rw [← h]
      simp [List.append_assoc]
    · simp only [sys_invariant, sys_step, if_neg hc] at h ⊢
      exact h
  | tick now =>
    cases hq : st.queue with
    | nil =>
      simp only [sys_invariant, sys_step, hq, scheduler_step] at h ⊢
      split
      · simp_all [List.flatten_append, List.append_assoc, Option.toList]
      · simp_all [Option.toList]
    | cons e rest =>
      simp only [sys_invariant, sys_step, hq, scheduler_step] at h ⊢
      split
      · simp_all [List.flatten_append, List.append_assoc, Option.toList]
      · simp_all [List.append_assoc, Option.toList]

/-- A whole run preserves the accounting invariant. -/
theorem sys_invariant_run {α : Type} (evs : List (SysEvent α)) (st : SystemState α)
    (h : sys_invariant st) : sys_invariant (sys_run st evs) := by
  induction evs generalizing st with
  | nil => exact h
  | cons ev evs ih => exact ih _ (sys_invariant_step st ev h)

/-- Every event accepted during a run was in the start state or offered by
some producer step of the run. -/
theorem sys_run_accepted_mem {α : Type} (evs : List (SysEvent α)) (st : SystemState α)
    (x : α) (hx : x ∈ (sys_run st evs).accepted) :
    x ∈ st.accepted ∨ x ∈ enqueued_of evs := by
  induction evs generalizing st with
  | nil => exact Or.inl hx
  | cons ev evs ih =>
    rcases ih (sys_step st ev) hx with h1 | h1
    · cases ev with
      | enqueue e =>
        by_cases hc : st.queue.length < channel_capacity
        · simp only [sys_step, if_pos hc] at h1
          rcases List.mem_append.mp h1 with h2 | h2
          · exact Or.inl h2
          · right
            simp only [List.mem_singleton] at h2
            simp [enqueued_of, h2]
        · simp only [sys_step, if_neg hc] at h1
          exact Or.inl h1
      | tick now =>
        rw [sys_step_tick_accepted] at h1
        exact Or.inl h1
    · right
      cases ev with
      | enqueue e =>
        simp only [enqueued_of, List.filterMap_cons] at h1 ⊢
        exact List.mem_cons_of_mem e h1
      | tick now =>
        simpa [enqueued_of, List.filterMap_cons] using h1

/-- One system transition preserves the batch-size bound. -/
theorem batch_bound_step {α : Type} (st : SystemState α) (ev : SysEvent α)
    (h : batch_bound_invariant st) : batch_bound_invariant (sys_step st ev) := by
  obtain ⟨h1, h2⟩ := h
  cases ev with
  | enqueue e =>
    by_cases hc : st.queue.length < channel_capacity
    · simpa only [batch_bound_invariant, sys_step, if_pos hc] using ⟨h1, h2⟩
    · simpa only [batch_bound_invariant, sys_step, if_neg hc] using ⟨h1, h2⟩
  | tick now =>
    cases hq : st.queue with
    | nil =>
      simp only [batch_bound_invariant, sys_step, hq, scheduler_step]
      split
      · refine ⟨by simp [batch_size_limit], ?_⟩
        intro b hb
        simp only [Option.toList, List.mem_append, List.mem_singleton] at hb
        rcases hb with hb | hb
        · exact h2 b hb
        · subst hb
          exact Nat.le_of_lt h1
      · exact ⟨h1, fun b hb => h2 b (by simpa [Option.toList] using hb)⟩
    | cons e rest =>
      simp only [batch_bound_invariant, sys_step, hq, scheduler_step]
      split
      · rename_i hle
        refine ⟨by simp [batch_size_limit], ?_⟩
        intro b hb
        simp only [Option.toList, List.mem_append, List.mem_singleton] at hb
        rcases hb with hb | hb
        · exact h2 b hb
        · subst hb
          simp only [List.length_append, List.length_singleton]
          omega
      · rename_i hle
        refine ⟨?_, fun b hb => h2 b (by simpa [Option.toList] using hb)⟩
        simp only [not_le] at hle
        simpa using hle

/-- The batch-size bound holds along any whole run. -/
theorem batch_bound_run {α : Type} (evs : List (SysEvent α)) (st : SystemState α)
    (h : batch_bound_invariant st) : batch_bound_invariant (sys_run st evs) := by
  induction evs generalizing st with
  | nil => exact h
  | cons ev evs ih => exact ih _ (batch_bound_step st ev h)

/-- Receiving an event that brings the batch to the size threshold flushes
the grown batch and resets the accumulator in the same iteration. -/
theorem scheduler_step_ok_flush_eq {α : Type} (now : Nat) (e : α) (s : SchedState α)
    (send_ok : Bool) (h : batch_size_limit ≤ s.event_batch.length + 1) :
    (scheduler_step true now (RecvOutcome.ok e) s send_ok).flushed
      = some (s.event_batch ++ [e])
    ∧ (scheduler_step true now (RecvOutcome.ok e) s send_ok).sched.event_batch = [] := by
  have hc : batch_size_limit ≤ (s.event_batch ++ [e]).length := by
    simpa [List.length_append, List.length_singleton] using h
  simp [scheduler_step, hc, h]

/-- C3: exactly-once FIFO batching. Along every run of the
channel-plus-scheduler system from the initial state, the concatenation of
the batches passed to `send_event_batch`, the in-progress batch and the
still-queued events equals the accepted-event sequence in enqueue order; an
enqueue finding spare capacity accepts exactly its event at the back; and
in a fully drained final state the flushed batches alone list every
accepted event exactly once, in enqueue order. -/
theorem c3_fifo_exactly_once :
    (∀ (α : Type) (evs : List (SysEvent α)),
      sys_invariant (sys_run (init_state α) evs))
    ∧ (∀ (α : Type) (st : SystemState α) (e : α),
        st.queue.length < channel_capacity →
        sys_step st (SysEvent.enqueue e)
          = { st with queue := st.queue ++ [e], accepted := st.accepted ++ [e] })
    ∧ (∀ (α : Type) (evs : List (SysEvent α)),
        (sys_run (init_state α) evs).queue = [] →
        (sys_run (init_state α) evs).sched.event_batch = [] →
        (sys_run (init_state α) evs).flushed.flatten
          = (sys_run (init_state α) evs).accepted) := by
  refine ⟨?_, ?_, ?_⟩
  · intro α evs
    exact sys_invariant_run evs _ rfl
  · intro α st e hc
    simp [sys_step, hc]
  · intro α evs h1 h2
    have h := sys_invariant_run evs (init_state α) rfl
    simp only [sys_invariant, h1, h2, List.append_nil] at h
    exact h

/-- C3 witness: a concrete run (two enqueues, two consuming ticks, one
timer flush) satisfying the invariant, the spare-capacity enqueue equation
and the drained-state equation. -/
theorem c3_fifo_exactly_once_witness :
    sys_invariant (sys_run (init_state Nat)
      [SysEvent.enqueue 1, SysEvent.enqueue 2, SysEvent.tick 0,
       SysEvent.tick 0, SysEvent.tick 2000])
    ∧ sys_step (init_state Nat) (SysEvent.enqueue 1)
        = { init_state Nat with queue := [] ++ [1], accepted := [] ++ [1] }
    ∧ (sys_run (init_state Nat)
        [SysEvent.enqueue 1, SysEvent.enqueue 2, SysEvent.tick 0,
         SysEvent.tick 0, SysEvent.tick 2000]).flushed.flatten
        = (sys_run (init_state Nat)
            [SysEvent.enqueue 1, SysEvent.enqueue 2, SysEvent.tick 0,
             SysEvent.tick 0, SysEvent.tick 2000]).accepted :=
  ⟨c3_fifo_exactly_once.1 Nat _,
   c3_fifo_exactly_once.2.1 Nat (init_state Nat) 1 (by decide),
   c3_fifo_exactly_once.2.2 Nat _ (by decide) (by decide)⟩

/-- C7: readiness gating. Every observer method called while the readiness
flag is false returns Ok to the caller and leaves the ingress channel
untouched, recording the skip; and an event that is neither already
accepted by the system nor offered by any producer step of a run appears in
no batch passed to `send_event_batch` during that run. -/
theorem c7_readiness_gating :
    (∀ (obs : XatuObserver) (ch : Channel EventData),
      obs.initialized = false →
      (∀ inp, obs.on_gossip_block ch inp
        = { result := .ok, channel := ch, outcome := .skippedNotInitialized })
      ∧ (∀ inp, obs.on_gossip_attestation ch inp
        = { result := .ok, channel := ch, outcome := .skippedNotInitialized })
      ∧ (∀ inp, obs.on_gossip_aggregate_and_proof ch inp
        = { result := .ok, channel := ch, outcome := .skippedNotInitialized })
      ∧ (∀ inp, obs.on_gossip_blob_sidecar ch inp
        = { result := .ok, channel := ch, outcome := .skippedNotInitialized })
      ∧ (∀ inp, obs.on_gossip_data_column_sidecar ch inp
        = { result := .ok, channel := ch, outcome := .skippedNotInitialized }))
    ∧ (∀ (st : SystemState EventData) (evs : List (SysEvent EventData)) (e : EventData),
        sys_invariant st → e ∉ st.accepted → e ∉ enqueued_of evs →
        ∀ b ∈ (sys_run st evs).flushed, e ∉ b) := by
  constructor
  · intro obs ch hinit
    refine ⟨?_, ?_, ?_, ?_, ?_⟩ <;> intro inp <;>
      simp [XatuObserver.on_gossip_block, XatuObserver.on_gossip_attestation,
        XatuObserver.on_gossip_aggregate_and_proof, XatuObserver.on_gossip_blob_sidecar,
        XatuObserver.on_gossip_data_column_sidecar, hinit]
  · intro st evs e hinv hacc henq b hb he
    have hrun := sys_invariant_run evs st hinv
    have hmem : e ∈ (sys_run st evs).flushed.flatten :=
      List.mem_flatten.mpr ⟨b, hb, he⟩
    have hmem2 : e ∈ (sys_run st evs).accepted := by
      rw [← hrun]
      exact List.mem_append.mpr (Or.inl (List.mem_append.mpr (Or.inl hmem)))
    rcases sys_run_accepted_mem evs st e hmem2 with h | h
    · exact hacc h
    · exact henq h

/-- C7 witness: the unready observer drops a block call without touching
the channel, and the dropped sample event is in no flushed batch of a
concrete run that flushes another event. -/
theorem c7_readiness_gating_witness :
    unready_observer.on_gossip_block empty_channel sample_block_input
      = { result := .ok, channel := empty_channel,
          outcome := .skippedNotInitialized }
    ∧ ∀ b ∈ (sys_run (init_state EventData)
        [SysEvent.enqueue other_event, SysEvent.tick 0, SysEvent.tick 2000]).flushed,
        sample_event ∉ b :=
  ⟨(c7_readiness_gating.1 unready_observer empty_channel rfl).1 sample_block_input,
   c7_readiness_gating.2 (init_state EventData)
     [SysEvent.enqueue other_event, SysEvent.tick 0, SysEvent.tick 2000]
     sample_event rfl (by decide) (by decide)⟩

/-- C8: bounded batches. Along every run from the initial state the
in-progress batch stays strictly below 10000 between iterations and every
batch passed to `send_event_batch` holds at most 10000 events; and whenever
appending a received event makes the batch reach 10000 (from any state
respecting the bound), the whole batch of exactly 10000 events is flushed
in that same iteration, regardless of elapsed time, and the accumulator is
reset to empty. -/
theorem c8_batch_size_bound :
    (∀ (α : Type) (evs : List (SysEvent α)),
      (sys_run (init_state α) evs).sched.event_batch.length < batch_size_limit)
    ∧ (∀ (α : Type) (evs : List (SysEvent α)) (b : List α),
        b ∈ (sys_run (init_state α) evs).flushed → b.length ≤ batch_size_limit)
    ∧ (∀ (α : Type) (s : SchedState α) (now : Nat) (e : α) (send_ok : Bool) (b : List α),
        s.event_batch.length < batch_size_limit →
        (scheduler_step true now (RecvOutcome.ok e) s send_ok).flushed = some b →
        b.length = batch_size_limit
        ∧ (scheduler_step true now (RecvOutcome.ok e) s send_ok).sched.event_batch = []) := by
  have hinit : ∀ (α : Type), batch_bound_invariant (init_state α) := by
    intro α
    constructor
    · simp [init_state, batch_size_limit]
    · intro b hb
      simp [init_state] at hb
  refine ⟨?_, ?_, ?_⟩
  · intro α evs
    exact (batch_bound_run evs (init_state α) (hinit α)).1
  · intro α evs b hb
    exact (batch_bound_run evs (init_state α) (hinit α)).2 b hb
  · intro α s now e send_ok b hlt hfl
    by_cases hle : batch_size_limit ≤ (s.event_batch ++ [e]).length
    · simp only [scheduler_step, if_pos hle] at hfl ⊢
      obtain rfl : s.event_batch ++ [e] = b := by
        injection hfl
      simp only [List.length_append, List.length_singleton] at hle ⊢
      exact ⟨by omega, by simp [if_pos hle]⟩
    · simp only [scheduler_step, if_neg hle] at hfl
      cases hfl

/-- C8 witness: from a batch of 9999 events, receiving one more flushes a
batch of exactly 10000 in that iteration and resets the accumulator. -/
theorem c8_batch_size_bound_witness :
    (sys_run (init_state Nat) []).sched.event_batch.length < batch_size_limit
    ∧ (scheduler_step true 5 (RecvOutcome.ok 1) near_full_sched true).flushed
        = some (List.replicate 9999 0 ++ [1])
    ∧ (List.replicate 9999 (0 : Nat) ++ [1]).length = batch_size_limit
    ∧ (scheduler_step true 5 (RecvOutcome.ok 1) near_full_sched true).sched.event_batch
        = [] := by
  have he : near_full_sched.event_batch = List.replicate 9999 0 := rfl
  have hlen : near_full_sched.event_batch.length < batch_size_limit := by
    rw [he, List.length_replicate]
    decide
  have hfl : (scheduler_step true 5 (RecvOutcome.ok 1) near_full_sched true).flushed
      = some (List.replicate 9999 0 ++ [1]) :=
    (scheduler_step_ok_flush_eq 5 1 near_full_sched true
      (by rw [he, List.length_replicate]; decide)).1
  have h3 := c8_batch_size_bound.2.2 Nat near_full_sched 5 1 true
    (List.replicate 9999 0 ++ [1]) hlen hfl
  exact ⟨c8_batch_size_bound.1 Nat [], hfl, h3.1, h3.2⟩

/-- C6: epoch derivation. Every event record built by the five observer
methods carries `epoch = slot / slots_per_epoch` (integer floor division),
including slot 0 and slots exactly on an epoch boundary
(`slot = slots_per_epoch` yields epoch 1); and on an initialized observer
with spare channel capacity the built event is the one enqueued. -/
theorem c6_epoch_floor_division (ni : NetworkInfo) (h : 1 ≤ ni.slots_per_epoch) :
    (∀ inp : BlockInput, (block_event ni inp).epoch = inp.slot / ni.slots_per_epoch)
    ∧ (∀ inp : AttestationInput,
        (attestation_event ni inp).epoch = inp.slot / ni.slots_per_epoch)
    ∧ (∀ inp : AggregateInput,
        (aggregate_event ni inp).epoch = inp.slot / ni.slots_per_epoch)
    ∧ (∀ inp : BlobSidecarInput,
        (blob_event ni inp).epoch = inp.slot / ni.slots_per_epoch)
    ∧ (∀ inp : DataColumnInput,
        (data_column_event ni inp).epoch = inp.slot / ni.slots_per_epoch)
    ∧ (∀ inp : BlockInput, inp.slot = 0 → (block_event ni inp).epoch = 0)
    ∧ (∀ inp : BlockInput, inp.slot = ni.slots_per_epoch →
        (block_event ni inp).epoch = 1)
    ∧ (∀ (obs : XatuObserver) (ch : Channel EventData) (inp : BlockInput),
        obs.initialized = true → obs.network_info = some ni →
        obs.event_sender = some () → ch.disconnected = false →
        ch.queue.length < ch.capacity →
        (obs.on_gossip_block ch inp).channel.queue
          = ch.queue ++ [block_event ni inp]) := by
  refine ⟨fun inp => rfl, fun inp => rfl, fun inp => rfl, fun inp => rfl, fun inp => rfl,
    ?_, ?_, ?_⟩
  · intro inp hs
    simp [block_event, EventData.epoch, hs]
  · intro inp hs
    simp [block_event, EventData.epoch, hs, Nat.div_self (Nat.lt_of_lt_of_le Nat.zero_lt_one h)]
  · intro obs ch inp hinit hni hs hd hc
    simp [XatuObserver.on_gossip_block, hinit, hni, send_event, hs, Channel.send, hd, hc]

/-- C6 witness: with 32 slots per epoch, slot 65 yields epoch 2 and slot 32
yields epoch 1; the event built at slot 65 is enqueued as constructed. -/
theorem c6_epoch_floor_division_witness :
    (block_event sample_network_info sample_block_input).epoch = 2
    ∧ (block_event sample_network_info boundary_block_input).epoch = 1
    ∧ (sample_observer.on_gossip_block empty_channel sample_block_input).channel.queue
        = empty_channel.queue ++ [block_event sample_network_info sample_block_input] := by
  have h := c6_epoch_floor_division sample_network_info (by decide)
  refine ⟨?_, ?_, ?_⟩
  · exact (h.1 sample_block_input).trans (by decide)
  · exact h.2.2.2.2.2.2.1 boundary_block_input rfl
  · exact h.2.2.2.2.2.2.2 sample_observer empty_channel sample_block_input
      rfl rfl rfl rfl (by decide)

/-- C10: an observer returned by `new_with_full_config` always carries its
network info, its readiness flag set and the sender half of the channel;
consequently the missing-network-info error branch of the five observer
methods is unreachable on it and, with at least one slot per epoch, every
observer call returns `ObserverResult::Ok`. -/
theorem c10_constructed_observer_ok (env : Env) (fc : FullConfig)
    (nio : Option NetworkInfo) (obs : XatuObserver)
    (h : XatuObserver.new_with_full_config env fc nio = Except.ok obs) :
    obs.network_info = nio ∧ nio.isSome = true ∧ obs.initialized = true
    ∧ obs.event_sender = some ()
    ∧ (∀ ni : NetworkInfo, obs.network_info = some ni → 1 ≤ ni.slots_per_epoch →
        (∀ ch inp, (obs.on_gossip_block ch inp).result = ObserverResult.ok)
        ∧ (∀ ch inp, (obs.on_gossip_attestation ch inp).result = ObserverResult.ok)
        ∧ (∀ ch inp, (obs.on_gossip_aggregate_and_proof ch inp).result = ObserverResult.ok)
        ∧ (∀ ch inp, (obs.on_gossip_blob_sidecar ch inp).result = ObserverResult.ok)
        ∧ (∀ ch inp, (obs.on_gossip_data_column_sidecar ch inp).result
            = ObserverResult.ok)) := by
  cases nio with
  | none =>
    simp [XatuObserver.new_with_full_config] at h
  | some ni0 =>
    rw [XatuObserver.new_with_full_config] at h
    simp only [Option.isNone_some, if_false, Bool.false_eq_true] at h
    cases hf : env.ffi_init (build_config_with_runtime env fc (some ni0)) with
    | error e =>
      rw [hf] at h
      cases h
    | ok u =>
      cases u
      rw [hf] at h
      cases h
      refine ⟨rfl, rfl, rfl, rfl, ?_⟩
      intro ni hni hspe
      refine ⟨?_, ?_, ?_, ?_, ?_⟩ <;> intro ch inp <;>
        simp [XatuObserver.on_gossip_block, XatuObserver.on_gossip_attestation,
          XatuObserver.on_gossip_aggregate_and_proof,
          XatuObserver.on_gossip_blob_sidecar,
          XatuObserver.on_gossip_data_column_sidecar, hni,
          send_event_result_ok]

/-- C10 witness: the concrete construction in a healthy environment yields
the sample observer, whose calls return Ok. -/
theorem c10_constructed_observer_ok_witness :
    sample_observer.network_info = some sample_network_info
    ∧ sample_observer.initialized = true
    ∧ (sample_observer.on_gossip_block empty_channel sample_block_input).result
        = ObserverResult.ok := by
  have h := c10_constructed_observer_ok ok_env XatuConfig.enabled_config.get_full_config
    (some sample_network_info) sample_observer rfl
  exact ⟨h.1, h.2.2.1,
    (h.2.2.2.2 sample_network_info h.1 (by decide)).1 empty_channel sample_block_input⟩

end Dimhouse
